import Mathlib

/-!
Verification of the publish/reconcile workflow of
`scripts/publish_juliaxbt_to_marketplace.py` (JuliaSphere repository).

The script's `main` function is embedded as `mainRun`, a function that is
generic over the outcomes of the seven backend calls it performs
(`connect`, `Agent.load`, `agent.delete`, `conn.list_agents`, `Agent.create`,
`agent.set_state`, `agent.get_info`).  The `juliaos` client library and the
backend it talks to are not part of the repository's source; their semantics
are modelled from the specification (§4.2 and §6) as `backendOps`.
Each run records the sequence of backend calls it performed (`Event` trace),
the exit code `main` returns, and the `AgentInfo` snapshot observed by the
final `get_info`, so that ordering, error-propagation and idempotence
properties of the workflow can be stated and proved.
-/

/-- Modelled from the spec (§3, §4.2): the agent state enum of the `juliaos`
library, which is not part of the repository source.  `DELETED` is terminal
and is represented in the backend model by removal of the resource. -/
inductive AgentState where
  | CREATED
  | RUNNING
  | PAUSED
  | DELETED
deriving DecidableEq, Repr

/-- Modelled from the spec (§7): the error taxonomy of the `juliaos` library,
which is not part of the repository source. -/
inductive BackendError where
  | connectionError
  | notFoundError
  | conflictError
  | validationError
  | invalidTransitionError
deriving DecidableEq, Repr

/-- A configuration value appearing in a tool/strategy/trigger config mapping
of the script.  Decimal literals of the source (`0.001`, `0.7`, `0.8`) are
represented exactly as `dec m e`, meaning m·10^(-e). -/
inductive ConfigValue where
  | str (v : String)
  | int (v : Int)
  | dec (mantissa : Int) (exp : Nat)
  | bool (v : Bool)
  | strList (v : List String)
deriving DecidableEq, Repr

/-- `juliaos.ToolBlueprint(name=..., config=...)` from the script. -/
structure ToolBlueprint where
  name : String
  config : List (String × ConfigValue)
deriving DecidableEq, Repr

/-- `juliaos.StrategyBlueprint(name=..., config=...)` from the script. -/
structure StrategyBlueprint where
  name : String
  config : List (String × ConfigValue)
deriving DecidableEq, Repr

/-- `juliaos.TriggerConfig(type=..., params=...)` from the script. -/
structure TriggerConfig where
  type : String
  params : List (String × ConfigValue)
deriving DecidableEq, Repr

/-- `juliaos.AgentBlueprint(tools=..., strategy=..., trigger=...)` from the
script. -/
structure AgentBlueprint where
  tools : List ToolBlueprint
  strategy : StrategyBlueprint
  trigger : TriggerConfig
deriving DecidableEq, Repr

/-- Modelled from the spec (§3): the identity under which the script publishes
its agent — the id is the sole idempotency key. -/
structure AgentIdentity where
  id : String
  display_name : String
  description : String
deriving DecidableEq, Repr

/-- Modelled from the spec (§4.2): the read-only snapshot returned by
`agent.get_info()`; the script reads the fields `state`, `tools` and
`strategy_name` from it (lines 333–335 of the source). -/
structure AgentInfo where
  state : AgentState
  tools : List String
  strategy_name : String
deriving DecidableEq, Repr

/-- The configuration constant `HOST` of the script. -/
def HOST : String := "http://127.0.0.1:8052/api/v1"

/-- The configuration constant `AGENT_ID` of the script. -/
def AGENT_ID : String := "juliaxbt-investigator"

/-- The configuration constant `AGENT_NAME` of the script. -/
def AGENT_NAME : String := "juliaXBT - Blockchain Investigation Agent"

/-- The configuration constant `AGENT_DESCRIPTION` of the script (the
multi-line description string, after Python's `.strip()`). -/
def AGENT_DESCRIPTION : String :=
  "Advanced blockchain forensics agent conducting comprehensive investigations in the style of juliaXBT.\n\nCapabilities:\n• Multi-hop transaction tracing across Solana blockchain\n• Mixer and privacy protocol detection\n• Social media intelligence gathering\n• Compliance violation assessment  \n• Automated evidence compilation and reporting\n• Investigation thread generation for community awareness\n\nPerfect for detecting suspicious wallet activity, tracking stolen funds, \nidentifying money laundering patterns, and conducting due diligence investigations."

/-- The configuration constant `AGENT_BLUEPRINT` of the script: five tools,
the `juliaxbt_investigation` strategy and a webhook trigger. -/
def AGENT_BLUEPRINT : AgentBlueprint :=
  { tools :=
      [ { name := "solana_rpc"
        , config :=
            [ ("rpc_url", .str "https://api.mainnet-beta.solana.com")
            , ("timeout_seconds", .int 30) ] }
      , { name := "transaction_tracer"
        , config :=
            [ ("rpc_url", .str "https://api.mainnet-beta.solana.com")
            , ("max_hops", .int 7)
            , ("timeout_seconds", .int 60)
            , ("min_transfer_amount", .dec 1 3) ] }
      , { name := "mixer_detector"
        , config :=
            [ ("rpc_url", .str "https://api.mainnet-beta.solana.com")
            , ("tornado_cash_addresses",
                .strList [ "JUP6LkbZbjS1jKKwapdHNy74zcZ3tLUZoi5QNyVTaV4"
                         , "whirLbMiicVdio4qvUfM5KAg6Ct8VwpYzGff3uctyCc" ])
            , ("samourai_addresses", .strList [])
            , ("mixer_confidence_threshold", .dec 7 1)
            , ("analysis_depth", .int 5)
            , ("timeout_seconds", .int 30) ] }
      , { name := "twitter_research"
        , config :=
            [ ("bearer_token", .str "demo-twitter-bearer-token")
            , ("api_base_url", .str "https://api.twitter.com/2")
            , ("max_results_per_request", .int 50)
            , ("timeout_seconds", .int 30)
            , ("include_metrics", .bool true) ] }
      , { name := "thread_generator"
        , config :=
            [ ("api_key", .str "demo-key-placeholder")
            , ("model_name", .str "models/gemini-1.5-pro")
            , ("temperature", .dec 8 1)
            , ("max_output_tokens", .int 2048)
            , ("juliaxbt_style", .bool true) ] } ]
  , strategy :=
      { name := "juliaxbt_investigation"
      , config :=
          [ ("max_investigation_depth", .int 7)
          , ("auto_publish_threads", .bool false)
          , ("investigation_priority_threshold", .str "MEDIUM")
          , ("enable_social_media_research", .bool true)
          , ("evidence_confidence_threshold", .dec 7 1) ] }
  , trigger :=
      { type := "webhook"
      , params := [ ("path", .str "/investigate"), ("method", .str "POST") ] } }

/-- The identity under which the script publishes: the constants `AGENT_ID`,
`AGENT_NAME`, `AGENT_DESCRIPTION` passed to `Agent.create` (lines 316–322). -/
def juliaxbtIdentity : AgentIdentity :=
  { id := AGENT_ID, display_name := AGENT_NAME, description := AGENT_DESCRIPTION }

/-- Outcome of the marketplace-submission step. -/
inductive MarketplaceResult where
  | notYetAvailable
  | published
deriving DecidableEq, Repr

/-- The marketplace-submission step of the script (lines 337–343): the actual
marketplace publishing API call is unimplemented (a TODO in the source); the
step performs no backend call and reports the listing as not yet available. -/
def marketplacePublish : MarketplaceResult := .notYetAvailable

/-- One backend call performed by `main`, together with whether it succeeded
(`ok = true`) or raised (`ok = false`); plus the marketplace-submission step,
which performs no backend call. -/
inductive Event where
  | connectCall (ok : Bool)
  | loadCall (ok : Bool)
  | deleteCall (ok : Bool)
  | listAgentsCall (ok : Bool)
  | createCall (ok : Bool)
  | setStateCall (target : AgentState) (ok : Bool)
  | getInfoCall (ok : Bool)
  | marketplaceStep (r : MarketplaceResult)
deriving DecidableEq, Repr

/-- The interface of backend calls used by `main`, generic in the backend
state type `σ` and the agent-handle type `α`.  Each call returns its result
(success value or raised error) together with the backend state after the
call.  `main` is proved correct for every implementation of this interface;
`backendOps` below instantiates it with the behaviour the spec prescribes for
the `juliaos` library. -/
structure Ops (σ α : Type) where
  connect : σ → Except BackendError Unit × σ
  load : σ → Except BackendError α × σ
  deleteAgent : α → σ → Except BackendError Unit × σ
  list_agents : σ → Except BackendError (List String) × σ
  create : σ → Except BackendError α × σ
  set_state : α → AgentState → σ → Except BackendError Unit × σ
  get_info : α → σ → Except BackendError AgentInfo × σ

/-- The observable result of one run of `main`: the integer it returns, the
final backend state, the sequence of calls performed, and the snapshot bound
to `agent_info` by the final `get_info` (present only when that call
succeeded). -/
structure RunResult (σ : Type) where
  exitCode : Nat
  final : σ
  trace : List Event
  info : Option AgentInfo
deriving Repr

/-- The trace suffix of a fully successful run, from `conn.list_agents()`
onwards: listing, create, set_state(RUNNING), get_info, and the
marketplace-submission step. -/
def fullSuccessSuffix : List Event :=
  [ .listAgentsCall true, .createCall true, .setStateCall .RUNNING true
  , .getInfoCall true, .marketplaceStep marketplacePublish ]

/-- The part of `main` after the load-and-delete cleanup block (source lines
303–369): `conn.list_agents()`, `Agent.create`, `agent.set_state(RUNNING)`,
`agent.get_info()`, the marketplace TODO step, then `return 0`.  A failure of
any of these calls propagates to the outer `except` of `main`, which returns
`1` (lines 371–379).  `pre` is the trace of the calls already performed. -/
def afterCleanup {σ α : Type} (ops : Ops σ α) (pre : List Event) (s3 : σ) :
    RunResult σ :=
  match ops.list_agents s3 with
  | (.error _, s4) => ⟨1, s4, pre ++ [.listAgentsCall false], none⟩
  | (.ok _, s4) =>
    match ops.create s4 with
    | (.error _, s5) => ⟨1, s5, pre ++ [.listAgentsCall true, .createCall false], none⟩
    | (.ok h, s5) =>
      match ops.set_state h .RUNNING s5 with
      | (.error _, s6) =>
          ⟨1, s6, pre ++ [.listAgentsCall true, .createCall true
                         , .setStateCall .RUNNING false], none⟩
      | (.ok _, s6) =>
        match ops.get_info h s6 with
        | (.error _, s7) =>
            ⟨1, s7, pre ++ [.listAgentsCall true, .createCall true
                           , .setStateCall .RUNNING true, .getInfoCall false], none⟩
        | (.ok info, s7) => ⟨0, s7, pre ++ fullSuccessSuffix, some info⟩

/-- The `main` function of the script (lines 280–379), embedded over an
arbitrary implementation of the backend calls.  Control flow of the source:
everything runs inside an outer `try` whose `except Exception` returns `1`;
the connection is opened first; then an inner `try` performs
`Agent.load(conn, AGENT_ID)` and, if it succeeded, `existing_agent.delete()`,
and its bare `except Exception` absorbs ANY failure of those two calls
(printing "No existing agent found (expected)") and falls through; then
`afterCleanup` performs the remaining calls.  A successful run returns `0`. -/
def mainRun {σ α : Type} (ops : Ops σ α) (s0 : σ) : RunResult σ :=
  match ops.connect s0 with
  | (.error _, s1) => ⟨1, s1, [.connectCall false], none⟩
  | (.ok _, s1) =>
    match ops.load s1 with
    | (.error _, s2) =>
        afterCleanup ops [.connectCall true, .loadCall false] s2
    | (.ok h, s2) =>
      match ops.deleteAgent h s2 with
      | (.error _, s3) =>
          afterCleanup ops [.connectCall true, .loadCall true, .deleteCall false] s3
      | (.ok _, s3) =>
          afterCleanup ops [.connectCall true, .loadCall true, .deleteCall true] s3

/-- Modelled from the spec (§3, §4.2): one remote agent resource stored by the
backend. -/
structure Resource where
  id : String
  display_name : String
  description : String
  blueprint : AgentBlueprint
  state : AgentState
deriving DecidableEq, Repr

/-- Modelled from the spec: the backend's resource store. -/
abbrev Backend := List Resource

/-- Modelled from the spec (§4.2): lookup of the resource stored under a given
id. -/
def findAgent (id : String) : Backend → Option Resource
  | [] => none
  | r :: rs => if r.id = id then some r else findAgent id rs

/-- Modelled from the spec (§4.2): removal of the resource stored under a
given id (deletion destroys the remote resource; `DELETED` is terminal). -/
def removeAgent (id : String) : Backend → Backend
  | [] => []
  | r :: rs => if r.id = id then removeAgent id rs else r :: removeAgent id rs

/-- Modelled from the spec (§4.2): in-place state update of the resource
stored under a given id. -/
def setAgentState (id : String) (st : AgentState) : Backend → Backend
  | [] => []
  | r :: rs =>
      (if r.id = id then { r with state := st } else r) :: setAgentState id st rs

/-- Modelled from the spec (§4.2): the transitions `set_state` accepts —
CREATED→RUNNING, RUNNING→PAUSED, PAUSED→RUNNING; everything else (including
any transition out of DELETED) is rejected with `InvalidTransitionError`. -/
def validTransition : AgentState → AgentState → Bool
  | .CREATED, .RUNNING => true
  | .RUNNING, .PAUSED => true
  | .PAUSED, .RUNNING => true
  | _, _ => false

/-- Modelled from the spec (§4.2, §6): the behaviour of the `juliaos` backend
calls used by the script, for a given target identity and blueprint.  Agent
handles are represented by the resource id they are bound to.  `load` fails
with `NotFoundError` when the id is absent; `delete` fails with
`NotFoundError` when already deleted; `create` fails with `ConflictError`
when the id already exists and otherwise allocates a fresh resource in state
CREATED; `set_state` enforces `validTransition`; `get_info` returns the
{state, tools, strategy name} snapshot; `connect` and `list_agents` succeed
on this model (connectivity faults are modelled by substituting the
corresponding `Ops` field, see the fault-injected variants below). -/
def backendOps (ident : AgentIdentity) (bp : AgentBlueprint) :
    Ops Backend String where
  connect s := (.ok (), s)
  load s :=
    match findAgent ident.id s with
    | some r => (.ok r.id, s)
    | none => (.error .notFoundError, s)
  deleteAgent h s :=
    match findAgent h s with
    | some _ => (.ok (), removeAgent h s)
    | none => (.error .notFoundError, s)
  list_agents s := (.ok (s.map (fun r => r.id)), s)
  create s :=
    match findAgent ident.id s with
    | some _ => (.error .conflictError, s)
    | none =>
        (.ok ident.id,
         { id := ident.id, display_name := ident.display_name
         , description := ident.description, blueprint := bp
         , state := .CREATED } :: s)
  set_state h target s :=
    match findAgent h s with
    | some r =>
        if validTransition r.state target then (.ok (), setAgentState h target s)
        else (.error .invalidTransitionError, s)
    | none => (.error .invalidTransitionError, s)
  get_info h s :=
    match findAgent h s with
    | some r =>
        (.ok { state := r.state, tools := r.blueprint.tools.map (fun t => t.name)
             , strategy_name := r.blueprint.strategy.name }, s)
    | none => (.error .notFoundError, s)

/-- One run of the script's publish workflow against the spec-modelled
backend, for a given identity and blueprint. -/
def runPublish (ident : AgentIdentity) (bp : AgentBlueprint) (bk : Backend) :
    RunResult Backend :=
  mainRun (backendOps ident bp) bk

/-- One run of the script exactly as written: the fixed identity built from
`AGENT_ID`/`AGENT_NAME`/`AGENT_DESCRIPTION` and the fixed `AGENT_BLUEPRINT`. -/
def runScript (bk : Backend) : RunResult Backend :=
  runPublish juliaxbtIdentity AGENT_BLUEPRINT bk

/-- A backend with a resource already stored under the script's target id
(used to exercise the load-then-delete path on concrete inputs). -/
def preExisting : Backend :=
  [ { id := AGENT_ID, display_name := AGENT_NAME
    , description := AGENT_DESCRIPTION, blueprint := AGENT_BLUEPRINT
    , state := .RUNNING } ]

/-- The spec-modelled backend, except that `Agent.load` raises
`ConnectionError` (the backend became unreachable when the workflow attempts
the initial load); all other calls behave normally. -/
def loadConnectionFailOps (ident : AgentIdentity) (bp : AgentBlueprint) :
    Ops Backend String :=
  { backendOps ident bp with load := fun s => (.error .connectionError, s) }

/-- The spec-modelled backend, except that `Agent.create` raises
`ConflictError`. -/
def createConflictOps (ident : AgentIdentity) (bp : AgentBlueprint) :
    Ops Backend String :=
  { backendOps ident bp with create := fun s => (.error .conflictError, s) }

/-- The spec-modelled backend, except that `agent.set_state` raises
`InvalidTransitionError` (while still mutating nothing). -/
def setStateFailOps (ident : AgentIdentity) (bp : AgentBlueprint) :
    Ops Backend String :=
  { backendOps ident bp with set_state := fun _ _ s => (.error .invalidTransitionError, s) }

/-- The spec-modelled backend, except that `agent.get_info` reports a fixed
snapshot `i` (two instantiations of this are used to show that `main`'s
return value does not carry the snapshot). -/
def getInfoConstOps (i : AgentInfo) (ident : AgentIdentity) (bp : AgentBlueprint) :
    Ops Backend String :=
  { backendOps ident bp with get_info := fun _ s => (.ok i, s) }

/-- Whether an event is a create call. -/
def isCreateEvent : Event → Bool
  | .createCall _ => true
  | _ => false

/-- Whether an event is a delete call. -/
def isDeleteEvent : Event → Bool
  | .deleteCall _ => true
  | _ => false

/-- Whether an event is one of the backend-API calls of spec §6 (everything
except the marketplace-submission step, which performs no backend call). -/
def isBackendOp : Event → Bool
  | .marketplaceStep _ => false
  | _ => true

/-- The order of backend operations asserted by the spec's data-flow /
reconciler description for a success run with no prior resource: load,
create, set_state(RUNNING), get_info — with no other backend call listed. -/
def claimedReconcilerOrder : List Event :=
  [ .loadCall false, .createCall true, .setStateCall .RUNNING true
  , .getInfoCall true ]

/-- The three possible traces of the inner load-and-delete cleanup block:
load raised (absorbed); load succeeded and delete raised (absorbed); load and
delete both succeeded. -/
def cleanupTraces : List (List Event) :=
  [ [.loadCall false]
  , [.loadCall true, .deleteCall false]
  , [.loadCall true, .deleteCall true] ]

/-- The five possible suffixes of the trace after the cleanup block, one per
exit point of `afterCleanup`. -/
def outcomeSuffixes : List (List Event) :=
  [ [.listAgentsCall false]
  , [.listAgentsCall true, .createCall false]
  , [.listAgentsCall true, .createCall true, .setStateCall .RUNNING false]
  , [.listAgentsCall true, .createCall true, .setStateCall .RUNNING true
    , .getInfoCall false]
  , fullSuccessSuffix ]

/-- Whether an event is a set_state call. -/
def isSetStateEvent : Event → Bool
  | .setStateCall _ _ => true
  | _ => false

/-- A first snapshot, used to vary the outcome of `get_info`. -/
def infoSnapshotA : AgentInfo :=
  { state := .RUNNING, tools := ["solana_rpc"], strategy_name := "alpha" }

/-- A second snapshot, different from `infoSnapshotA`. -/
def infoSnapshotB : AgentInfo :=
  { state := .RUNNING, tools := [], strategy_name := "beta" }

theorem findAgent_eq_some_id {id : String} {l : Backend} {r : Resource}
    (h : findAgent id l = some r) : r.id = id := by
  induction l with
  | nil => simp [findAgent] at h
  | cons a as ih =>
    simp only [findAgent] at h
    split at h
    · cases h
      assumption
    · exact ih h

theorem findAgent_remove_self (id : String) (l : Backend) :
    findAgent id (removeAgent id l) = none := by
  induction l with
  | nil => rfl
  | cons a as ih =>
    simp only [removeAgent]
    split
    · exact ih
    · simp only [findAgent]
      rw [if_neg (by assumption)]
      exact ih

theorem afterCleanup_shape {σ α : Type} (ops : Ops σ α) (pre : List Event) (s : σ) :
    ∃ suf, suf ∈ outcomeSuffixes ∧
      (afterCleanup ops pre s).trace = pre ++ suf ∧
      ((afterCleanup ops pre s).exitCode = 0 ↔ suf = fullSuccessSuffix) ∧
      ((afterCleanup ops pre s).exitCode = 0 ∨ (afterCleanup ops pre s).exitCode = 1) ∧
      ((afterCleanup ops pre s).info.isSome ↔ (afterCleanup ops pre s).exitCode = 0) := by
  unfold afterCleanup
  repeat' split
  all_goals refine ⟨_, ?_, rfl, ?_, ?_, ?_⟩ <;>
    simp [outcomeSuffixes, fullSuccessSuffix]

theorem mainRun_shape {σ α : Type} (ops : Ops σ α) (s : σ) :
    ((mainRun ops s).trace = [.connectCall false] ∧ (mainRun ops s).exitCode = 1 ∧
      (mainRun ops s).info = none) ∨
    ∃ ct suf, ct ∈ cleanupTraces ∧ suf ∈ outcomeSuffixes ∧
      (mainRun ops s).trace = .connectCall true :: (ct ++ suf) ∧
      ((mainRun ops s).exitCode = 0 ↔ suf = fullSuccessSuffix) ∧
      ((mainRun ops s).exitCode = 0 ∨ (mainRun ops s).exitCode = 1) ∧
      ((mainRun ops s).info.isSome ↔ (mainRun ops s).exitCode = 0) := by
  unfold mainRun
  split
  · exact Or.inl ⟨rfl, rfl, rfl⟩
  · split
    · rename_i s2 heq
      obtain ⟨suf, hmem, htr, hiff, hor, hinfo⟩ :=
        afterCleanup_shape ops [.connectCall true, .loadCall false] s2
      exact Or.inr ⟨[.loadCall false], suf, by decide, hmem, htr, hiff, hor, hinfo⟩
    · split
      · rename_i s3 heq
        obtain ⟨suf, hmem, htr, hiff, hor, hinfo⟩ :=
          afterCleanup_shape ops [.connectCall true, .loadCall true, .deleteCall false] s3
        exact Or.inr ⟨[.loadCall true, .deleteCall false], suf, by decide, hmem,
          htr, hiff, hor, hinfo⟩
      · rename_i s3 heq
        obtain ⟨suf, hmem, htr, hiff, hor, hinfo⟩ :=
          afterCleanup_shape ops [.connectCall true, .loadCall true, .deleteCall true] s3
        exact Or.inr ⟨[.loadCall true, .deleteCall true], suf, by decide, hmem,
          htr, hiff, hor, hinfo⟩

theorem runPublish_eval (ident : AgentIdentity) (bp : AgentBlueprint) (bk : Backend) :
    runPublish ident bp bk =
      { exitCode := 0
      , final :=
          { id := ident.id, display_name := ident.display_name
          , description := ident.description, blueprint := bp
          , state := .RUNNING } ::
            setAgentState ident.id .RUNNING
              (if (findAgent ident.id bk).isSome then removeAgent ident.id bk else bk)
      , trace := .connectCall true ::
          ((if (findAgent ident.id bk).isSome then [.loadCall true, .deleteCall true]
            else [.loadCall false]) ++ fullSuccessSuffix)
      , info := some { state := .RUNNING, tools := bp.tools.map (fun t => t.name)
                     , strategy_name := bp.strategy.name } } := by
  cases h : findAgent ident.id bk with
  | none =>
    simp [runPublish, mainRun, afterCleanup, backendOps, h, findAgent,
      setAgentState, validTransition]
  | some r =>
    have hid : r.id = ident.id := findAgent_eq_some_id h
    simp [runPublish, mainRun, afterCleanup, backendOps, h, hid,
      findAgent_remove_self, findAgent, setAgentState, validTransition]

/-- C1: for any identity I and blueprint B, running the publish workflow twice
in succession against a fresh (empty) backend yields, after both runs, exactly
one resource under I.id, in RUNNING state; both runs exit successfully, and
the second run's load-then-delete step absorbs the resource created by the
first run (the second run performs a successful delete and a successful
create, with no conflict error). -/
theorem publish_twice_idempotent (ident : AgentIdentity) (bp : AgentBlueprint) :
    (runPublish ident bp []).exitCode = 0 ∧
    (runPublish ident bp (runPublish ident bp []).final).exitCode = 0 ∧
    (runPublish ident bp (runPublish ident bp []).final).final =
      [ { id := ident.id, display_name := ident.display_name
        , description := ident.description, blueprint := bp
        , state := .RUNNING } ] ∧
    ((runPublish ident bp (runPublish ident bp []).final).final.countP
      (fun r => r.id == ident.id)) = 1 ∧
    .deleteCall true ∈ (runPublish ident bp (runPublish ident bp []).final).trace ∧
    .createCall true ∈ (runPublish ident bp (runPublish ident bp []).final).trace := by
  refine ⟨?_, ?_, ?_, ?_, ?_, ?_⟩ <;>
    simp [runPublish_eval, findAgent, removeAgent, setAgentState,
      fullSuccessSuffix, List.countP_cons, List.countP_nil]

/-- C5: for every identity with no prior resource under its id (on any backend
content), the publish workflow succeeds end to end — exit code 0, so no
not-found failure reaches the caller — and the not-found outcome of the
initial load is recorded as absorbed while the workflow proceeds to a
successful create. -/
theorem publish_absence_tolerated (ident : AgentIdentity) (bp : AgentBlueprint)
    (bk : Backend) (h : findAgent ident.id bk = none) :
    (runPublish ident bp bk).exitCode = 0 ∧
    .loadCall false ∈ (runPublish ident bp bk).trace ∧
    .createCall true ∈ (runPublish ident bp bk).trace := by
  refine ⟨?_, ?_, ?_⟩ <;> simp [runPublish_eval, h, fullSuccessSuffix]

/-- Witness for `publish_absence_tolerated`: the script's own identity against
an empty backend. -/
theorem publish_absence_tolerated_witness :
    findAgent juliaxbtIdentity.id [] = none ∧
    ((runPublish juliaxbtIdentity AGENT_BLUEPRINT []).exitCode = 0 ∧
     .loadCall false ∈ (runPublish juliaxbtIdentity AGENT_BLUEPRINT []).trace ∧
     .createCall true ∈ (runPublish juliaxbtIdentity AGENT_BLUEPRINT []).trace) :=
  ⟨rfl, publish_absence_tolerated juliaxbtIdentity AGENT_BLUEPRINT [] rfl⟩

/-- Counterexample to C3 as stated: on a fresh backend the script's successful
run performs backend operations beyond the claimed load→create→set_state→
get_info sequence — the connection call and, between the cleanup and the
create, a `conn.list_agents()` call — so the backend-operation trace is not
exactly the claimed order. -/
theorem publish_order_counterexample :
    (runScript []).trace.filter isBackendOp ≠ claimedReconcilerOrder ∧
    .listAgentsCall true ∈ (runScript []).trace ∧
    (runScript []).exitCode = 0 := by decide

/-- C3 amended: on the success path the workflow performs its backend
operations in exactly this order — connect, load of the target id, then (only
if the load found a resource) delete of that resource, then a read-only
list_agents, then create from the blueprint, then set_state(RUNNING) on the
freshly created handle, then get_info — with no backend mutation preceding
the load and no step repeated. -/
theorem publish_operation_order (ident : AgentIdentity) (bp : AgentBlueprint)
    (bk : Backend) :
    (runPublish ident bp bk).exitCode = 0 ∧
    (runPublish ident bp bk).trace =
      .connectCall true ::
        ((if (findAgent ident.id bk).isSome then [.loadCall true, .deleteCall true]
          else [.loadCall false]) ++ fullSuccessSuffix) := by
  rw [runPublish_eval]
  exact ⟨rfl, rfl⟩

/-- Counterexample to C7 as stated: the value `main` returns to its caller is
the exit code, not the result of the final `get_info` — two behaviours whose
final `get_info` snapshots differ produce the same return value 0, so the
returned value does not carry the AgentInfo snapshot. -/
theorem publish_return_counterexample :
    (mainRun (getInfoConstOps infoSnapshotA juliaxbtIdentity AGENT_BLUEPRINT) []).exitCode =
      (mainRun (getInfoConstOps infoSnapshotB juliaxbtIdentity AGENT_BLUEPRINT) []).exitCode ∧
    (mainRun (getInfoConstOps infoSnapshotA juliaxbtIdentity AGENT_BLUEPRINT) []).info ≠
      (mainRun (getInfoConstOps infoSnapshotB juliaxbtIdentity AGENT_BLUEPRINT) []).info ∧
    (mainRun (getInfoConstOps infoSnapshotA juliaxbtIdentity AGENT_BLUEPRINT) []).exitCode = 0 := by
  decide

/-- C7 amended: on success the workflow observes, via the final `get_info`, a
fully-formed AgentInfo snapshot (state RUNNING, the blueprint's tool list,
the strategy name) and reports it, while returning exit code 0 to the caller;
and it never signals success with a missing snapshot — whenever `main`
returns 0, the final `get_info` succeeded and a snapshot was observed. -/
theorem publish_success_snapshot :
    (∀ (ident : AgentIdentity) (bp : AgentBlueprint) (bk : Backend),
      (runPublish ident bp bk).exitCode = 0 ∧
      (runPublish ident bp bk).info =
        some { state := .RUNNING, tools := bp.tools.map (fun t => t.name)
             , strategy_name := bp.strategy.name }) ∧
    ∀ (σ α : Type) (ops : Ops σ α) (s : σ),
      (mainRun ops s).exitCode = 0 → (mainRun ops s).info.isSome := by
  constructor
  · intro ident bp bk
    rw [runPublish_eval]
    exact ⟨rfl, rfl⟩
  · intro σ α ops s h0
    rcases mainRun_shape ops s with ⟨htr, hex, hinfo⟩ | ⟨ct, suf, hct, hsuf, htr, hiff, hor, hinfo⟩
    · rw [h0] at hex
      exact absurd hex (by decide)
    · exact hinfo.mpr h0

/-- Witness for `publish_success_snapshot`: the script's own run on an empty
backend returns 0 and its snapshot is present. -/
theorem publish_success_snapshot_witness :
    ((mainRun (backendOps juliaxbtIdentity AGENT_BLUEPRINT) []).info).isSome :=
  publish_success_snapshot.2 Backend String
    (backendOps juliaxbtIdentity AGENT_BLUEPRINT) [] (by decide)

/-- C2 divergence, evaluated: when `Agent.load` raises `ConnectionError`
(backend unreachable at the load step) and every later call succeeds, the
script's bare `except Exception` around the load/delete block absorbs the
error, the create IS attempted and succeeds, and `main` returns 0 — whereas
the claim (and spec scenario C) requires the publish to fail with
`ConnectionError` with no create attempted. -/
theorem load_connection_error_absorbed :
    (mainRun (loadConnectionFailOps juliaxbtIdentity AGENT_BLUEPRINT) []).exitCode = 0 ∧
    .loadCall false ∈
      (mainRun (loadConnectionFailOps juliaxbtIdentity AGENT_BLUEPRINT) []).trace ∧
    .createCall true ∈
      (mainRun (loadConnectionFailOps juliaxbtIdentity AGENT_BLUEPRINT) []).trace := by
  decide

/-- C4: whatever the backend behaviour, if the create call fails then `main`
returns 1, no set_state call is ever attempted, and the create is not retried
(exactly one create call appears in the trace). -/
theorem create_failure_fail_fast (σ α : Type) (ops : Ops σ α) (s : σ)
    (hmem : .createCall false ∈ (mainRun ops s).trace) :
    (mainRun ops s).exitCode = 1 ∧
    (mainRun ops s).trace.countP isSetStateEvent = 0 ∧
    (mainRun ops s).trace.countP isCreateEvent = 1 := by
  rcases mainRun_shape ops s with ⟨htr, hex, -⟩ | ⟨ct, suf, hct, hsuf, htr, hiff, hor, -⟩
  · rw [htr] at hmem
    exact absurd hmem (by decide)
  · simp only [cleanupTraces, outcomeSuffixes, List.mem_cons, List.not_mem_nil,
      or_false] at hct hsuf
    rcases hct with rfl | rfl | rfl <;> rcases hsuf with rfl | rfl | rfl | rfl | rfl <;>
      first
      | (rw [htr] at hmem; exact absurd hmem (by decide))
      | (have h1 : (mainRun ops s).exitCode = 1 := by
           rcases hor with h0 | h1
           · exact absurd (hiff.mp h0) (by decide)
           · exact h1
         exact ⟨h1, by rw [htr]; decide, by rw [htr]; decide⟩)

/-- Witness for `create_failure_fail_fast`: a backend whose create call raises
`ConflictError`. -/
theorem create_failure_fail_fast_witness :
    .createCall false ∈
      (mainRun (createConflictOps juliaxbtIdentity AGENT_BLUEPRINT) []).trace ∧
    ((mainRun (createConflictOps juliaxbtIdentity AGENT_BLUEPRINT) []).exitCode = 1 ∧
     (mainRun (createConflictOps juliaxbtIdentity AGENT_BLUEPRINT) []).trace.countP
       isSetStateEvent = 0 ∧
     (mainRun (createConflictOps juliaxbtIdentity AGENT_BLUEPRINT) []).trace.countP
       isCreateEvent = 1) :=
  ⟨by decide, create_failure_fail_fast Backend String
    (createConflictOps juliaxbtIdentity AGENT_BLUEPRINT) [] (by decide)⟩

/-- C6: if set_state(RUNNING) fails after a successful create, the failure is
surfaced (`main` returns 1), the failed set_state call is the last backend
operation performed — in particular the freshly created resource is not
rolled back by a delete — and the resource remains in CREATED state. -/
theorem set_state_failure_no_rollback (ident : AgentIdentity) (bp : AgentBlueprint)
    (bk : Backend) :
    (mainRun (setStateFailOps ident bp) bk).exitCode = 1 ∧
    (mainRun (setStateFailOps ident bp) bk).trace =
      .connectCall true ::
        ((if (findAgent ident.id bk).isSome then [.loadCall true, .deleteCall true]
          else [.loadCall false]) ++
         [.listAgentsCall true, .createCall true, .setStateCall .RUNNING false]) ∧
    (findAgent ident.id (mainRun (setStateFailOps ident bp) bk).final).map
      (fun r => r.state) = some .CREATED ∧
    (mainRun (setStateFailOps ident bp) bk).info = none := by
  cases h : findAgent ident.id bk with
  | none =>
    refine ⟨?_, ?_, ?_, ?_⟩ <;>
      simp [mainRun, afterCleanup, setStateFailOps, backendOps, h, findAgent]
  | some r =>
    have hid : r.id = ident.id := findAgent_eq_some_id h
    refine ⟨?_, ?_, ?_, ?_⟩ <;>
      simp [mainRun, afterCleanup, setStateFailOps, backendOps, h, hid,
        findAgent_remove_self, findAgent]

/-- Witness for `set_state_failure_no_rollback` at the script's identity and
an empty backend. -/
theorem set_state_failure_no_rollback_witness :
    (mainRun (setStateFailOps juliaxbtIdentity AGENT_BLUEPRINT) []).exitCode = 1 :=
  (set_state_failure_no_rollback juliaxbtIdentity AGENT_BLUEPRINT []).1

/-- C8: the marketplace-submission step is recorded as the distinct
"not yet available" outcome; no run ever records a marketplace-published
outcome, and every successful run (exit code 0) carries the explicit
not-yet-available marker rather than folding the unimplemented marketplace
publish into its success. -/
theorem marketplace_not_disguised :
    marketplacePublish = .notYetAvailable ∧
    ∀ (σ α : Type) (ops : Ops σ α) (s : σ),
      .marketplaceStep .published ∉ (mainRun ops s).trace ∧
      ((mainRun ops s).exitCode = 0 →
        .marketplaceStep .notYetAvailable ∈ (mainRun ops s).trace) := by
  refine ⟨rfl, ?_⟩
  intro σ α ops s
  rcases mainRun_shape ops s with ⟨htr, hex, -⟩ | ⟨ct, suf, hct, hsuf, htr, hiff, -, -⟩
  · refine ⟨by rw [htr]; decide, ?_⟩
    intro h0
    rw [hex] at h0
    exact absurd h0 (by decide)
  · simp only [cleanupTraces, outcomeSuffixes, List.mem_cons, List.not_mem_nil,
      or_false] at hct hsuf
    rcases hct with rfl | rfl | rfl <;> rcases hsuf with rfl | rfl | rfl | rfl | rfl <;>
      (refine ⟨by rw [htr]; decide, ?_⟩
       intro h0
       first
       | (rw [htr]; decide)
       | exact absurd (hiff.mp h0) (by decide))

/-- Witness for `marketplace_not_disguised`: the script's successful run on an
empty backend records the not-yet-available marketplace outcome. -/
theorem marketplace_not_disguised_witness :
    .marketplaceStep .notYetAvailable ∈
      (mainRun (backendOps juliaxbtIdentity AGENT_BLUEPRINT) []).trace :=
  (marketplace_not_disguised.2 Backend String
    (backendOps juliaxbtIdentity AGENT_BLUEPRINT) []).2 (by decide)

/-- Counterexample to C9 as stated: a behaviour in which a backend operation
raises (`Agent.load` raises `NotFoundError` on the fresh backend) yet `main`
returns 0, not 1 — the load/delete failures are absorbed, so "any raise
implies exit 1" is false on the code. -/
theorem exit_one_on_any_raise_counterexample :
    (runScript []).exitCode = 0 ∧ .loadCall false ∈ (runScript []).trace := by
  decide

/-- C9 amended: `main` never propagates an exception — its result is always
exactly 0 or 1 — and it returns 1 precisely when one of the calls outside the
cleanup block (connect, list_agents, create, set_state, get_info) raised;
failures of the load/delete cleanup calls are absorbed and do not by
themselves produce a nonzero exit code. -/
theorem exit_codes_binary (σ α : Type) (ops : Ops σ α) (s : σ) :
    ((mainRun ops s).exitCode = 0 ∨ (mainRun ops s).exitCode = 1) ∧
    ((mainRun ops s).exitCode = 1 ↔
      (.connectCall false ∈ (mainRun ops s).trace ∨
       .listAgentsCall false ∈ (mainRun ops s).trace ∨
       .createCall false ∈ (mainRun ops s).trace ∨
       .setStateCall .RUNNING false ∈ (mainRun ops s).trace ∨
       .getInfoCall false ∈ (mainRun ops s).trace)) := by
  rcases mainRun_shape ops s with ⟨htr, hex, -⟩ | ⟨ct, suf, hct, hsuf, htr, hiff, hor, -⟩
  · refine ⟨Or.inr hex, ?_⟩
    rw [hex, htr]
    decide
  · simp only [cleanupTraces, outcomeSuffixes, List.mem_cons, List.not_mem_nil,
      or_false] at hct hsuf
    rcases hct with rfl | rfl | rfl <;> rcases hsuf with rfl | rfl | rfl | rfl | rfl <;>
      first
      | (have h0 : (mainRun ops s).exitCode = 0 := hiff.mpr rfl
         refine ⟨Or.inl h0, ?_⟩
         rw [h0, htr]
         decide)
      | (have h1 : (mainRun ops s).exitCode = 1 := by
           rcases hor with h0 | h1
           · exact absurd (hiff.mp h0) (by decide)
           · exact h1
         refine ⟨Or.inr h1, ?_⟩
         rw [h1, htr]
         decide)

/-- Witness for `exit_codes_binary` at the script's backend with an existing
resource. -/
theorem exit_codes_binary_witness :
    (mainRun (backendOps juliaxbtIdentity AGENT_BLUEPRINT) preExisting).exitCode = 0 ∨
    (mainRun (backendOps juliaxbtIdentity AGENT_BLUEPRINT) preExisting).exitCode = 1 :=
  (exit_codes_binary Backend String
    (backendOps juliaxbtIdentity AGENT_BLUEPRINT) preExisting).1

/-- C10: in every run, delete appears at most once in the trace and create
appears at most once (create is never retried), and any delete call occurs
immediately after a successful load of the target id — the workflow never
deletes a resource it did not first load. -/
theorem delete_create_at_most_once (σ α : Type) (ops : Ops σ α) (s : σ) :
    (mainRun ops s).trace.countP isDeleteEvent ≤ 1 ∧
    (mainRun ops s).trace.countP isCreateEvent ≤ 1 ∧
    ∀ b : Bool, .deleteCall b ∈ (mainRun ops s).trace →
      [.loadCall true, .deleteCall b] <:+: (mainRun ops s).trace := by
  rcases mainRun_shape ops s with ⟨htr, -, -⟩ | ⟨ct, suf, hct, hsuf, htr, -, -, -⟩
  · refine ⟨by rw [htr]; decide, by rw [htr]; decide, ?_⟩
    intro b hb
    rw [htr] at hb
    cases b <;> exact absurd hb (by decide)
  · simp only [cleanupTraces, outcomeSuffixes, List.mem_cons, List.not_mem_nil,
      or_false] at hct hsuf
    rcases hct with rfl | rfl | rfl <;> rcases hsuf with rfl | rfl | rfl | rfl | rfl <;>
      (refine ⟨by rw [htr]; decide, by rw [htr]; decide, ?_⟩
       intro b hb
       rw [htr] at hb
       rw [htr]
       cases b <;>
         first
         | exact absurd hb (by decide)
         | decide)

/-- Witness for `delete_create_at_most_once`: a run against a backend holding
a prior resource under the target id, whose delete call is immediately
preceded by the successful load. -/
theorem delete_create_at_most_once_witness :
    [.loadCall true, .deleteCall true] <:+:
      (mainRun (backendOps juliaxbtIdentity AGENT_BLUEPRINT) preExisting).trace :=
  (delete_create_at_most_once Backend String
    (backendOps juliaxbtIdentity AGENT_BLUEPRINT) preExisting).2.2 true (by decide)
